import Mathlib

/-!
Verification of the interactive ORCA GOAT input generator
(src/generate_goat_inputs.py) against its specification.

The script is shallowly embedded: every renderer becomes a pure function
from the configuration to the text it writes (represented as a list of
lines), the interactive answers become an explicit `Answers` record, and
the effects of `main` (directory creation, file writes, exit codes) become
an explicit `Outcome` value.
-/

set_option maxHeartbeats 1000000

namespace OrcaGoat

/-- Python `str.lower()` modelled character-wise with `Char.toLower`. -/
def pyLower (s : String) : String :=
  String.mk (s.data.map Char.toLower)

/-- Python `str.replace('-', '_')`: the pattern is a single character, so the
replacement is character-wise. -/
def pyReplaceDashUnderscore (s : String) : String :=
  String.mk (s.data.map (fun c => if c = '-' then '_' else c))

/-- The expression `config['GOAT_TYPE'].lower().replace('-', '_')` used by all
three renderers (source lines 90, 155, 460). -/
def goat_type_lower (gt : String) : String :=
  pyReplaceDashUnderscore (pyLower gt)

/-- The lines of the shell script written by `generate_submit_all_script`
(source lines 209-263).  The heredoc is a plain string literal in the
source: it interpolates nothing. -/
def generate_submit_all_script_lines : List String :=
  ["#!/bin/bash",
   "",
   "# Batch submission script for all GOAT jobs",
   "# Generated automatically by generate_goat_inputs.py",
   "",
   "echo \"=========================================\"",
   "echo \"  Submitting All GOAT Jobs\"",
   "echo \"=========================================\"",
   "echo \"\"",
   "",
   "# Find all sbatch scripts",
   "sbatch_scripts=(run_*.sh)",
   "",
   "if [ $\x7b#sbatch_scripts[@]\x7d -eq 0 ]; then",
   "    echo \"ERROR: No sbatch scripts found!\"",
   "    exit 1",
   "fi",
   "",
   "echo \"Found $\x7b#sbatch_scripts[@]\x7d job(s) to submit:\"",
   "echo \"\"",
   "",
   "# Submit each job",
   "job_ids=()",
   "for script in \"$\x7bsbatch_scripts[@]\x7d\"; do",
   "    if [ -f \"$script\" ] && [ -x \"$script\" ]; then",
   "        echo \"Submitting: $script\"",
   "        output=$(sbatch \"$script\" 2>&1)",
   "        if [ $? -eq 0 ]; then",
   "            job_id=$(echo \"$output\" | grep -oP \x27Submitted batch job \\K\\d+\x27)",
   "            job_ids+=(\"$job_id\")",
   "            echo \"  ✓ Job ID: $job_id\"",
   "        else",
   "            echo \"  ✗ Failed: $output\"",
   "        fi",
   "    else",
   "        echo \"Skipping: $script (not executable or not found)\"",
   "    fi",
   "    echo \"\"",
   "done",
   "",
   "echo \"=========================================\"",
   "echo \"  Submission Summary\"",
   "echo \"=========================================\"",
   "echo \"\"",
   "echo \"Total jobs submitted: $\x7b#job_ids[@]\x7d\"",
   "echo \"Job IDs: $\x7bjob_ids[@]\x7d\"",
   "echo \"\"",
   "echo \"To monitor jobs:\"",
   "echo \"  squeue -u $USER\"",
   "echo \"  squeue -j $(IFS=,; echo \"$\x7bjob_ids[*]\x7d\")\"",
   "echo \"\"",
   "echo \"To cancel all jobs:\"",
   "echo \"  scancel $(IFS=\x27 \x27; echo \"$\x7bjob_ids[*]\x7d\")\"",
   "echo \"\""]

/-- The full text written by `generate_submit_all_script`.  The
`goat_type_lower` argument of the Python function is accepted and ignored,
exactly as in the source: the heredoc uses no interpolation. -/
def generate_submit_all_script_content (_goat_type_lower : String) : String :=
  String.intercalate "\n" generate_submit_all_script_lines ++ "\n"

/-- A file name matches the shell glob `run_*.sh`: it decomposes as
`run_` ++ anything ++ `.sh`. -/
def matchesRunShGlob (name : String) : Bool :=
  "run_".data.isPrefixOf name.data
    && ".sh".data.isSuffixOf name.data
    && decide (7 ≤ name.length)

/-- The value of the array `sbatch_scripts=(run_*.sh)` in the generated
helper script, under default bash semantics (nullglob unset): when no file
matches, the glob is left as the literal word `run_*.sh`. -/
def submit_all_sbatch_scripts_array (files : List String) : List String :=
  if (files.filter matchesRunShGlob).isEmpty then ["run_*.sh"]
  else files.filter matchesRunShGlob

/-- Observable result of executing the generated helper script. -/
structure SubmitAllResult where
  exitCode : Nat
  errorReported : Bool
  deriving DecidableEq

/-- Modelled execution of the generated helper script in a directory whose
(non-hidden) file names are `files`: the array is built from the glob, the
`-eq 0` check either fires (error message, `exit 1`) or the script runs its
loop and falls off the end, exiting with the status of the final `echo`,
which is 0. -/
def submit_all_run (files : List String) : SubmitAllResult :=
  let arr := submit_all_sbatch_scripts_array files
  if arr.length = 0 then ⟨1, true⟩ else ⟨0, false⟩

/-- Python `str.strip()` on the character list: drop leading whitespace, then
drop trailing whitespace. -/
def pyStripData (l : List Char) : List Char :=
  ((l.dropWhile Char.isWhitespace).reverse.dropWhile Char.isWhitespace).reverse

/-- Python `str.strip()`. -/
def pyStrip (s : String) : String :=
  String.mk (pyStripData s.data)

/-- The function `prompt_with_default` (source lines 43-46): the read line is
stripped; the stripped input is returned if non-empty, else the default. -/
def prompt_with_default (user_input default_value : String) : String :=
  if pyStrip user_input = "" then default_value else pyStrip user_input

/-- A string neither starts nor ends with a whitespace character. -/
def no_surrounding_ws (s : String) : Prop :=
  s.data.head?.all (fun c => !c.isWhitespace) = true
    ∧ s.data.getLast?.all (fun c => !c.isWhitespace) = true

instance (s : String) : Decidable (no_surrounding_ws s) := by
  unfold no_surrounding_ws
  infer_instance

/-- Every default value passed to `prompt_with_default` anywhere in the
program (source lines 332-443, plus the solvent prompt at line 344 and the
GFN prompt at line 412), in program order. -/
def program_defaults : List String :=
  ["XTB2", "Water", "NORMALOPT", "", "200", "25", "32", "256", "5", "12.0",
   "298.15", "0.1", "AUTO", "gfn2xtb", "500", "5e-6", "1e-4", "3e-4", "0",
   "1", "1", "96:00:00", "400G", "", "OpenMPI/4.1.6-GCC-13.2.0 ORCA/6.1.0",
   "/path/to/orca", "sh", "goat_inputs"]

/-- The answers a user gives during one run: the raw text typed at each
`prompt_with_default` call, the boolean outcome of each `prompt_yes_no`
loop, and the mode name returned by `select_goat_variant` (one of the four
variant names). -/
structure Answers where
  goat_type : String
  method_input : String
  use_solvation : Bool
  solvent_input : String
  opt_level_input : String
  additional_keywords_input : String
  nprocs_input : String
  nworkers_input : String
  maxcoresopt_input : String
  maxiter_input : String
  minglobaliter_input : String
  maxen_input : String
  conftemp_input : String
  keep_worker_data : Bool
  mindels_input : String
  confdegen_input : String
  freeze_bonds : Bool
  freeze_angles : Bool
  freeze_amides : Bool
  freeze_cistrans : Bool
  use_gfnuphill : Bool
  gfnuphill_method_input : String
  geom_maxiter_input : String
  geom_tole_input : String
  geom_tolrmsg_input : String
  geom_tolmaxg_input : String
  charge_input : String
  mult_input : String
  nodes_input : String
  walltime_input : String
  memory_input : String
  partition_input : String
  module_load_input : String
  orca_path_input : String
  rsh_command_input : String

/-- The menu map of `select_goat_variant` (source lines 72-77). -/
def select_goat_variant (choice : String) : Option String :=
  if choice = "1" then some "GOAT"
  else if choice = "2" then some "GOAT-ENTROPY"
  else if choice = "3" then some "GOAT-EXPLORE"
  else if choice = "4" then some "GOAT-DIVERSITY"
  else none

/-- The configuration dictionary built by `main` (source lines 322-439), as
the association list of key/value pairs in insertion order.  Conditional
insertions mirror the source: the entropy-specific keys are added only for
mode GOAT-ENTROPY (lines 386-391), the explore-specific keys only for mode
GOAT-EXPLORE (lines 393-398), and GFNUPHILL_METHOD only when the
use-faster-GFN question was answered yes (lines 409-414). -/
def build_config (a : Answers) : List (String × String) :=
  [("GOAT_TYPE", a.goat_type),
   ("METHOD", prompt_with_default a.method_input "XTB2"),
   ("SOLVENT_KEYWORD",
     if a.use_solvation then
       "CPCM(" ++ (prompt_with_default a.solvent_input "Water" ++ ")")
     else ""),
   ("EXTRA_KEYWORDS",
     if prompt_with_default a.additional_keywords_input "" = "" then
       prompt_with_default a.opt_level_input "NORMALOPT"
     else
       prompt_with_default a.opt_level_input "NORMALOPT"
         ++ (" " ++ prompt_with_default a.additional_keywords_input "")),
   ("NPROCS", prompt_with_default a.nprocs_input "200"),
   ("NWORKERS", prompt_with_default a.nworkers_input "25"),
   ("MAXCORESOPT", prompt_with_default a.maxcoresopt_input "32"),
   ("MAXITER", prompt_with_default a.maxiter_input "256"),
   ("MINGLOBALITER", prompt_with_default a.minglobaliter_input "5"),
   ("MAXEN", prompt_with_default a.maxen_input "12.0"),
   ("CONFTEMP", prompt_with_default a.conftemp_input "298.15"),
   ("KEEPWORKERDATA", if a.keep_worker_data then "true" else "false")]
  ++ (if a.goat_type = "GOAT-ENTROPY" then
        [("MINDELS", prompt_with_default a.mindels_input "0.1"),
         ("CONFDEGEN", prompt_with_default a.confdegen_input "AUTO")]
      else [])
  ++ (if a.goat_type = "GOAT-EXPLORE" then
        [("FREEZEBONDS", if a.freeze_bonds then "true" else "false"),
         ("FREEZEANGLES", if a.freeze_angles then "true" else "false")]
      else [])
  ++ [("FREEZE_AMIDES", if a.freeze_amides then "true" else "false"),
      ("FREEZE_CISTRANS", if a.freeze_cistrans then "true" else "false")]
  ++ (if a.use_gfnuphill then
        [("USE_GFNUPHILL", "true"),
         ("GFNUPHILL_METHOD", prompt_with_default a.gfnuphill_method_input "gfn2xtb")]
      else [("USE_GFNUPHILL", "false")])
  ++ [("GEOM_MAXITER", prompt_with_default a.geom_maxiter_input "500"),
      ("GEOM_TOLE", prompt_with_default a.geom_tole_input "5e-6"),
      ("GEOM_TOLRMSG", prompt_with_default a.geom_tolrmsg_input "1e-4"),
      ("GEOM_TOLMAXG", prompt_with_default a.geom_tolmaxg_input "3e-4"),
      ("CHARGE", prompt_with_default a.charge_input "0"),
      ("MULT", prompt_with_default a.mult_input "1"),
      ("NODES", prompt_with_default a.nodes_input "1"),
      ("WALLTIME", prompt_with_default a.walltime_input "96:00:00"),
      ("MEMORY", prompt_with_default a.memory_input "400G"),
      ("PARTITION", prompt_with_default a.partition_input ""),
      ("MODULE_LOAD",
        prompt_with_default a.module_load_input "OpenMPI/4.1.6-GCC-13.2.0 ORCA/6.1.0"),
      ("ORCA_PATH", prompt_with_default a.orca_path_input "/path/to/orca"),
      ("RSH_COMMAND", prompt_with_default a.rsh_command_input "sh")]

/-- The set of keys present in a configuration mapping. -/
def config_keys (a : Answers) : List String :=
  (build_config a).map Prod.fst

/-- The configuration values read by the renderers.  `main` stores every
value as a string; mode-specific keys are only ever read in the branch
guarded by the matching mode (or toggle), so a total record is an
equivalent view for the renderers. -/
structure Config where
  GOAT_TYPE : String
  METHOD : String
  SOLVENT_KEYWORD : String
  EXTRA_KEYWORDS : String
  NPROCS : String
  NWORKERS : String
  MAXCORESOPT : String
  MAXITER : String
  MINGLOBALITER : String
  MAXEN : String
  KEEPWORKERDATA : String
  CONFTEMP : String
  MINDELS : String
  CONFDEGEN : String
  FREEZEBONDS : String
  FREEZEANGLES : String
  FREEZE_AMIDES : String
  FREEZE_CISTRANS : String
  USE_GFNUPHILL : String
  GFNUPHILL_METHOD : String
  GEOM_MAXITER : String
  GEOM_TOLE : String
  GEOM_TOLRMSG : String
  GEOM_TOLMAXG : String
  CHARGE : String
  MULT : String
  NODES : String
  WALLTIME : String
  MEMORY : String
  PARTITION : String
  MODULE_LOAD : String
  ORCA_PATH : String
  RSH_COMMAND : String

/-- The final component of a path (text after the last slash), modelling
`pathlib.PurePath.name`. -/
def path_name (p : String) : String :=
  String.mk ((p.data.reverse.takeWhile (fun c => c ≠ '/')).reverse)

/-- Modelling `pathlib.PurePath.stem`: the final component without its last
extension; a lone leading dot does not start an extension. -/
def path_stem (p : String) : String :=
  let n := (path_name p).data
  let ext_len := (n.reverse.takeWhile (fun c => c ≠ '.')).length
  if ext_len = n.length then String.mk n
  else if n.length - ext_len - 1 = 0 then String.mk n
  else String.mk (n.take (n.length - ext_len - 1))

/-- Name of the job file (source line 91): `<stem>_<goat_type_lower>.inp`. -/
def generate_inp_file_name (base_name : String) (config : Config) : String :=
  base_name ++ ("_" ++ (goat_type_lower config.GOAT_TYPE ++ ".inp"))

/-- Name of the submission script (source line 157):
`run_<stem>_<goat_type_lower>.sh`. -/
def generate_sbatch_file_name (base_name : String) (config : Config) : String :=
  "run_" ++ (base_name ++ ("_" ++ (goat_type_lower config.GOAT_TYPE ++ ".sh")))

/-- Full path of the job file inside the configured output directory
(source line 91: `output_dir / f"..."`). -/
def generate_inp_file_path (output_dir xyz_file : String) (config : Config) : String :=
  output_dir ++ ("/" ++ generate_inp_file_name (path_stem xyz_file) config)

/-- Full path of the submission script inside the configured output
directory (source line 157). -/
def generate_sbatch_file_path (output_dir xyz_file : String) (config : Config) : String :=
  output_dir ++ ("/" ++ generate_sbatch_file_name (path_stem xyz_file) config)

/-- The forced maximize-entropy line (source line 118). -/
def maxentropy_line : String :=
  "  MAXENTROPY true                  # Use delta Gconf as convergence criteria"

/-- The minimum-entropy-difference line carrying a value (source line 119). -/
def mindels_line (v : String) : String :=
  "  MINDELS " ++ (v ++ "               # Minimum entropy difference (cal/mol/K)")

/-- The degeneracy-handling line carrying a value (source line 120). -/
def confdegen_line (v : String) : String :=
  "  CONFDEGEN " ++ (v ++ "           # Rotamer degeneracy handling")

/-- The lines written by `generate_inp_file` (source lines 95-147), in
order; a write ending in a double newline contributes its line plus an
empty line. -/
def generate_inp_file_lines (xyz_file : String) (config : Config) : List String :=
  ["# ORCA " ++ (config.GOAT_TYPE ++ (" Input File for " ++ path_stem xyz_file)),
   "# Generated for cyclic peptide conformational search",
   "# Objective: Generate structurally diverse conformations without breaking topology",
   "# Configured for " ++ (config.NPROCS ++ " CPU cores"),
   "",
   "! " ++ (config.GOAT_TYPE ++ (" " ++ (config.METHOD ++ (" " ++
     (config.SOLVENT_KEYWORD ++ (" " ++ config.EXTRA_KEYWORDS)))))),
   "",
   "%pal",
   "  nprocs " ++ config.NPROCS,
   "end",
   "",
   "%goat",
   "  NWORKERS " ++ (config.NWORKERS ++ "             # Number of parallel workers"),
   "  MAXCORESOPT " ++ (config.MAXCORESOPT ++ "       # Max cores per optimization"),
   "  MAXITER " ++ (config.MAXITER ++ "               # Maximum global iterations"),
   "  MINGLOBALITER " ++ (config.MINGLOBALITER ++ "   # Minimum global iterations"),
   "  MAXEN " ++ (config.MAXEN ++ "                   # Maximum relative energy (kcal/mol)"),
   "  KEEPWORKERDATA " ++ (config.KEEPWORKERDATA ++ " # Keep worker output files"),
   "  CONFTEMP " ++ (config.CONFTEMP ++ "             # Temperature for Boltzmann populations (K)")]
  ++ (if config.GOAT_TYPE = "GOAT-ENTROPY" then
        [maxentropy_line, mindels_line config.MINDELS, confdegen_line config.CONFDEGEN]
      else [])
  ++ (if config.GOAT_TYPE = "GOAT-EXPLORE" then
        ["  FREEZEBONDS " ++ (config.FREEZEBONDS ++ "       # Freeze bonds during uphill step"),
         "  FREEZEANGLES " ++ (config.FREEZEANGLES ++ "     # Freeze sp2 angles and dihedrals")]
      else [])
  ++ (if config.FREEZE_AMIDES = "true" then
        ["  FREEZEAMIDES true                # Preserve amide bond chirality (cis/trans)"]
      else [])
  ++ (if config.FREEZE_CISTRANS = "true" then
        ["  FREEZECISTRANS true              # Preserve double bond stereochemistry"]
      else [])
  ++ (if config.USE_GFNUPHILL = "true" then
        ["  GFNUPHILL " ++ (config.GFNUPHILL_METHOD ++ "    # Use faster method for uphill steps")]
      else [])
  ++ ["end",
      "",
      "%geom",
      "  MaxIter " ++ config.GEOM_MAXITER,
      "  TolE " ++ config.GEOM_TOLE,
      "  TolRMSG " ++ config.GEOM_TOLRMSG,
      "  TolMaxG " ++ config.GEOM_TOLMAXG,
      "end",
      "",
      "* xyzfile " ++ (config.CHARGE ++ (" " ++ (config.MULT ++ (" " ++ xyz_file)))),
      ""]

/-- The full text written by `generate_inp_file`. -/
def generate_inp_file_content (xyz_file : String) (config : Config) : String :=
  String.intercalate "\n" (generate_inp_file_lines xyz_file config) ++ "\n"

/-- A concrete configuration, with the defaults the program offers. -/
def sampleConfig : Config :=
  { GOAT_TYPE := "GOAT", METHOD := "XTB2", SOLVENT_KEYWORD := "",
    EXTRA_KEYWORDS := "NORMALOPT", NPROCS := "200", NWORKERS := "25",
    MAXCORESOPT := "32", MAXITER := "256", MINGLOBALITER := "5",
    MAXEN := "12.0", KEEPWORKERDATA := "false", CONFTEMP := "298.15",
    MINDELS := "0.1", CONFDEGEN := "AUTO", FREEZEBONDS := "true",
    FREEZEANGLES := "true", FREEZE_AMIDES := "true", FREEZE_CISTRANS := "true",
    USE_GFNUPHILL := "false", GFNUPHILL_METHOD := "gfn2xtb",
    GEOM_MAXITER := "500", GEOM_TOLE := "5e-6", GEOM_TOLRMSG := "1e-4",
    GEOM_TOLMAXG := "3e-4", CHARGE := "0", MULT := "1", NODES := "1",
    WALLTIME := "96:00:00", MEMORY := "400G", PARTITION := "",
    MODULE_LOAD := "OpenMPI/4.1.6-GCC-13.2.0 ORCA/6.1.0",
    ORCA_PATH := "/path/to/orca", RSH_COMMAND := "sh" }

/-- The tasks directive of the submission script (source line 165). -/
def ntasks_line (v : String) : String :=
  "#SBATCH --ntasks=" ++ v

/-- The partition directive of the submission script (source line 172). -/
def partition_line (v : String) : String :=
  "#SBATCH --partition=" ++ v

/-- The lines written by `generate_sbatch_script` (source lines 161-197), in
order; the partition directive is added only when the configured PARTITION
value is truthy, i.e. a non-empty string. -/
def generate_sbatch_script_lines (xyz_file : String) (config : Config) : List String :=
  let base_name := path_stem xyz_file
  let gtl := goat_type_lower config.GOAT_TYPE
  let inp_file := base_name ++ ("_" ++ (gtl ++ ".inp"))
  ["#!/bin/bash",
   "#SBATCH --job-name=" ++ (base_name ++ ("_" ++ gtl)),
   "#SBATCH --nodes=" ++ config.NODES,
   ntasks_line config.NPROCS,
   "#SBATCH --time=" ++ config.WALLTIME,
   "#SBATCH --mem=" ++ config.MEMORY,
   "#SBATCH --output=slurm-%j.out"]
  ++ (if config.PARTITION = "" then [] else [partition_line config.PARTITION])
  ++ ["",
      "# Load ORCA module",
      "module purge",
      "module load " ++ config.MODULE_LOAD,
      "",
      "# Set environment variables",
      "export RSH_COMMAND=\"" ++ (config.RSH_COMMAND ++ "\""),
      "",
      "# Print job information",
      "echo \"=========================================\"",
      "echo \"Job started at: $(date)\"",
      "echo \"Job ID: $SLURM_JOB_ID\"",
      "echo \"Node: $SLURM_NODELIST\"",
      "echo \"Working directory: $PWD\"",
      "echo \"=========================================\"",
      "echo \"\"",
      "",
      "# Run ORCA",
      (config.ORCA_PATH ++ (" " ++ (inp_file ++ (" > " ++ (base_name ++ ("_" ++ gtl)))))) ++ ".out",
      "",
      "# Print completion information",
      "echo \"\"",
      "echo \"=========================================\"",
      "echo \"Job completed at: $(date)\"",
      "echo \"=========================================\"",
      ""]

/-- The full text written by `generate_sbatch_script`. -/
def generate_sbatch_script_content (xyz_file : String) (config : Config) : String :=
  String.intercalate "\n" (generate_sbatch_script_lines xyz_file config) ++ "\n"

/-- Helper for `pySplit`: walk the characters, accumulating the current
(reversed) word; whitespace ends a word, empty pieces are dropped. -/
def pySplitData : List Char → List Char → List String
  | [], acc => if acc = [] then [] else [String.mk acc.reverse]
  | c :: rest, acc =>
      if c.isWhitespace then
        (if acc = [] then [] else [String.mk acc.reverse]) ++ pySplitData rest []
      else pySplitData rest (c :: acc)

/-- Python `str.split()` with no argument: split on runs of whitespace,
dropping empty pieces (source line 305: `selection.split()`). -/
def pySplit (s : String) : List String :=
  pySplitData s.data []

/-- Value of a non-empty all-digit character list. -/
def decDigitsVal? (l : List Char) : Option Nat :=
  if l = [] then none
  else if l.all (fun c => c.isDigit) then
    some (l.foldl (fun n c => 10 * n + (c.toNat - 48)) 0)
  else none

/-- Python `int(token)` on a whitespace-free token (source line 307):
an optional sign followed by decimal digits; anything else raises
ValueError, modelled as `none`.  (Underscore separators and non-ASCII
digits, which CPython also accepts, are not modelled.) -/
def pyToInt? (s : String) : Option Int :=
  match s.data with
  | '+' :: rest => (decDigitsVal? rest).map (fun n => (n : Int))
  | '-' :: rest => (decDigitsVal? rest).map (fun n => -(n : Int))
  | l => (decDigitsVal? l).map (fun n => (n : Int))

/-- One selection token resolved against the listed files (source lines
306-313): a parseable index in `1..len` yields the file at that index,
anything else is skipped. -/
def resolve_token (xyz_files : List String) (tok : String) : Option String :=
  match pyToInt? tok with
  | none => none
  | some idx =>
      if 1 ≤ idx ∧ idx ≤ (xyz_files.length : Int) then
        xyz_files.get? (idx.toNat - 1)
      else none

/-- The files selected by a list of numeric tokens, in token order
(source lines 304-313). -/
def select_by_tokens (toks : List String) (xyz_files : List String) : List String :=
  toks.filterMap (resolve_token xyz_files)

/-- The warning messages printed while processing the tokens (source lines
311 and 313), in token order. -/
def selection_warnings (toks : List String) (xyz_files : List String) : List String :=
  toks.filterMap (fun tok =>
    match pyToInt? tok with
    | none => some ("Invalid input: " ++ (tok ++ " (skipped)"))
    | some idx =>
        if 1 ≤ idx ∧ idx ≤ (xyz_files.length : Int) then none
        else some ("Invalid index: " ++ (toString idx ++ " (skipped)")))

/-- A directory entry matched by the glob `*.xyz` (source line 285). -/
def matches_xyz_glob (name : String) : Bool :=
  ".xyz".data.isSuffixOf name.data

/-- The artifact list of `main`: the `*.xyz` entries of the input
directory, sorted lexicographically (source line 285,
`sorted(xyzs_dir.glob("*.xyz"))`). -/
def sorted_xyz_files (listing : List String) : List String :=
  List.insertionSort (fun a b => a ≤ b) (listing.filter matches_xyz_glob)

/-- The write performed by `generate_inp_file`: target path and content. -/
def inp_write (output_dir : String) (config : Config) (xyz_file : String) :
    String × String :=
  (generate_inp_file_path output_dir xyz_file config,
   generate_inp_file_content xyz_file config)

/-- The write performed by `generate_sbatch_script`. -/
def sbatch_write (output_dir : String) (config : Config) (xyz_file : String) :
    String × String :=
  (generate_sbatch_file_path output_dir xyz_file config,
   generate_sbatch_script_content xyz_file config)

/-- The write performed by `generate_submit_all_script` (source line 206). -/
def submit_all_write (output_dir : String) (config : Config) : String × String :=
  (output_dir ++ "/submit_all_jobs.sh",
   generate_submit_all_script_content (goat_type_lower config.GOAT_TYPE))

/-- The writes of the rendering loop (source lines 453-457): for each
selected file, in order, one job file then one submission script. -/
def render_writes : List String → String → Config → List (String × String)
  | [], _, _ => []
  | x :: rest, output_dir, config =>
      [inp_write output_dir config x, sbatch_write output_dir config x]
        ++ render_writes rest output_dir config

/-- The file system resulting from a sequence of writes: a later write to
the same path overwrites an earlier one. -/
def apply_writes (ws : List (String × String)) (p : String) : Option String :=
  (ws.reverse.find? (fun w => w.fst == p)).map Prod.snd

/-- Observable outcome of a run of `main`: exit code, whether (and which)
output directory was created, and the file writes in order. -/
structure Outcome where
  exitCode : Nat
  dirCreated : Option String
  writes : List (String × String)
  deriving DecidableEq

/-- The effect of `main` (source lines 278-317 and 441-461) as a function
of the input-directory listing, the (stripped) selection line, the
configuration and the output directory: exit 1 before creating anything if
no artifact exists or the selection resolves to nothing; otherwise render
each selected artifact in order and finally the helper script. -/
def main_run (listing : List String) (selection : String) (config : Config)
    (output_dir : String) : Outcome :=
  let xyz_files := sorted_xyz_files listing
  if xyz_files.isEmpty then ⟨1, none, []⟩
  else
    let selected_files :=
      if pyLower selection = "all" then xyz_files
      else select_by_tokens (pySplit selection) xyz_files
    if selected_files.isEmpty then ⟨1, none, []⟩
    else ⟨0, some output_dir,
          render_writes selected_files output_dir config
            ++ [submit_all_write output_dir config]⟩

/-- A concrete run of answers choosing mode GOAT-ENTROPY, used by witnesses. -/
def sampleAnswers : Answers :=
  { goat_type := "GOAT-ENTROPY", method_input := "", use_solvation := false,
    solvent_input := "", opt_level_input := "", additional_keywords_input := "",
    nprocs_input := "", nworkers_input := "", maxcoresopt_input := "",
    maxiter_input := "", minglobaliter_input := "", maxen_input := "",
    conftemp_input := "", keep_worker_data := false, mindels_input := "",
    confdegen_input := "", freeze_bonds := true, freeze_angles := true,
    freeze_amides := true, freeze_cistrans := true, use_gfnuphill := false,
    gfnuphill_method_input := "", geom_maxiter_input := "", geom_tole_input := "",
    geom_tolrmsg_input := "", geom_tolmaxg_input := "", charge_input := "",
    mult_input := "", nodes_input := "", walltime_input := "",
    memory_input := "", partition_input := "", module_load_input := "",
    orca_path_input := "", rsh_command_input := "" }

/-! Theorems: helper lemmas first, then one theorem (and witness) per claim. -/

/-- Appending strings appends their character lists. -/
theorem data_append (a b : String) : (a ++ b).data = a.data ++ b.data := by
  cases a; cases b; rfl

/-- A string that extends a leftover piece `p` on the left cannot equal a
string of which `p.data` is no prefix. -/
theorem ne_of_left_part (p a t : String)
    (h : p.data.isPrefixOf t.data = false) : p ++ a ≠ t := by
  intro he
  have hp : p.data.isPrefixOf t.data = true := by
    rw [ List.isPrefixOf_iff_prefix]
    exact ⟨a.data, by rw [← data_append, he]⟩
  rw [hp] at h
  exact Bool.noConfusion h

/-- A string that extends a concrete suffix `s` on the right cannot equal a
string of which `s.data` is no suffix. -/
theorem ne_of_right_part (a s t : String)
    (h : s.data.isSuffixOf t.data = false) : a ++ s ≠ t := by
  intro he
  have hp : s.data.isSuffixOf t.data = true := by
    rw [List.isSuffixOf_iff_suffix]
    exact ⟨a.data, by rw [← data_append, he]⟩
  rw [hp] at h
  exact Bool.noConfusion h

/-- If two lists each extend to the same list, one is a prefix of the other. -/
theorem prefix_total_of_append_eq {α : Type} :
    ∀ (p q a b : List α), p ++ a = q ++ b → p <+: q ∨ q <+: p := by
  intro p
  induction p with
  | nil => intro q a b _; exact Or.inl List.nil_prefix
  | cons x xs ih =>
    intro q a b h
    cases q with
    | nil => exact Or.inr List.nil_prefix
    | cons y ys =>
      simp only [List.cons_append, List.cons.injEq] at h
      rcases h with ⟨rfl, h⟩
      rcases ih ys a b h with h1 | h1
      · exact Or.inl (List.cons_prefix_cons.2 ⟨rfl, h1⟩)
      · exact Or.inr (List.cons_prefix_cons.2 ⟨rfl, h1⟩)

/-- Two templated strings with mutually non-prefix leading parts differ. -/
theorem ne_of_parts (p q a b : String)
    (h1 : p.data.isPrefixOf q.data = false)
    (h2 : q.data.isPrefixOf p.data = false) : p ++ a ≠ q ++ b := by
  intro he
  have hd : p.data ++ a.data = q.data ++ b.data := by
    rw [← data_append, ← data_append, he]
  rcases prefix_total_of_append_eq p.data q.data a.data b.data hd with h | h
  · rw [( List.isPrefixOf_iff_prefix).2 h] at h1
    exact Bool.noConfusion h1
  · rw [( List.isPrefixOf_iff_prefix).2 h] at h2
    exact Bool.noConfusion h2

/-- Membership in a conditional list that is empty in the negative branch. -/
theorem mem_ite_nil {c : Prop} [Decidable c] {l : List String} {x : String} :
    x ∈ (if c then l else []) ↔ c ∧ x ∈ l := by
  split
  · next h => simp [h]
  · next h => simp [h]

/-- Membership in a conditional list that is empty in the positive branch. -/
theorem mem_nil_ite {c : Prop} [Decidable c] {l : List String} {x : String} :
    x ∈ (if c then [] else l) ↔ ¬ c ∧ x ∈ l := by
  split
  · next h => simp [h]
  · next h => simp [h]

/-- Claim C1 (status: code_bug).  In a directory with no `run_*.sh` files the
generated helper script does NOT report an error and does NOT exit non-zero:
the unmatched glob leaves the literal word `run_*.sh` in the array, so the
`-eq 0` test can never succeed — on the empty directory the script exits 0
with no error reported, and in general the array is never empty, making the
error branch dead code. -/
theorem claim_C1_helper_error_branch_dead :
    (submit_all_run []).exitCode = 0
    ∧ (submit_all_run []).errorReported = false
    ∧ ∀ files : List String, 0 < (submit_all_sbatch_scripts_array files).length := by
  refine ⟨by rfl, by rfl, ?_⟩
  intro files
  unfold submit_all_sbatch_scripts_array
  split
  · simp
  · next h =>
    cases hm : files.filter matchesRunShGlob with
    | nil => rw [hm] at h; simp at h
    | cons y ys => simp

/-- Claim C7.  The content of the batch-submission helper script is a fixed
string: it does not depend on the mode-name argument (which the source
accepts and never uses) nor on any configuration value. -/
theorem claim_C7_helper_content_fixed :
    ∀ g1 g2 : String,
      generate_submit_all_script_content g1 = generate_submit_all_script_content g2 := by
  intro g1 g2
  rfl

/-- The head of a `dropWhile` result fails the predicate. -/
theorem head_dropWhile_not (p : Char → Bool) :
    ∀ (l : List Char) (c : Char), (l.dropWhile p).head? = some c → p c = false := by
  intro l
  induction l with
  | nil => intro c h; simp [List.dropWhile] at h
  | cons x xs ih =>
    intro c h
    rw [List.dropWhile_cons] at h
    split at h
    · exact ih c h
    · next hx =>
      simp only [List.head?_cons, Option.some.injEq] at h
      subst h
      simpa using hx

/-- A non-empty `dropWhile` result keeps the last element of the list. -/
theorem getLast_dropWhile_eq (p : Char → Bool) (l : List Char)
    (h : l.dropWhile p ≠ []) : (l.dropWhile p).getLast? = l.getLast? := by
  obtain ⟨pre, hpre⟩ := List.dropWhile_suffix (l := l) p
  calc (l.dropWhile p).getLast?
      = (pre ++ l.dropWhile p).getLast? := (List.getLast?_append_of_ne_nil pre h).symm
    _ = l.getLast? := by rw [hpre]

/-- Stripping removes all surrounding whitespace. -/
theorem pyStrip_no_surrounding (s : String) : no_surrounding_ws (pyStrip s) := by
  unfold no_surrounding_ws pyStrip pyStripData
  constructor
  · rw [List.head?_reverse]
    by_cases hC :
        ((s.data.dropWhile Char.isWhitespace).reverse.dropWhile Char.isWhitespace) = []
    · rw [hC]; rfl
    · rw [getLast_dropWhile_eq _ _ hC, List.getLast?_reverse]
      cases hA : (s.data.dropWhile Char.isWhitespace).head? with
      | none => rfl
      | some c =>
        have := head_dropWhile_not Char.isWhitespace s.data c hA
        simp [this]
  · rw [List.getLast?_reverse]
    cases hC :
        ((s.data.dropWhile Char.isWhitespace).reverse.dropWhile Char.isWhitespace).head? with
    | none => rfl
    | some c =>
      have := head_dropWhile_not Char.isWhitespace
        (s.data.dropWhile Char.isWhitespace).reverse c hC
      simp [this]

/-- Claim C10.  A free-text prompt returns the stripped user input when that
is non-empty; whitespace-only input falls back to the default; and for every
default actually used by the program the returned value has no surrounding
whitespace. -/
theorem claim_C10_prompt_with_default (user_input default_value : String) :
    (pyStrip user_input ≠ "" →
        prompt_with_default user_input default_value = pyStrip user_input)
    ∧ (user_input.data.all (fun c => c.isWhitespace) = true →
        prompt_with_default user_input default_value = default_value)
    ∧ (default_value ∈ program_defaults →
        no_surrounding_ws (prompt_with_default user_input default_value)) := by
  refine ⟨?_, ?_, ?_⟩
  · intro h
    simp only [prompt_with_default]
    rw [if_neg h]
  · intro h
    have hnil : pyStrip user_input = "" := by
      have hdrop : user_input.data.dropWhile Char.isWhitespace = [] :=
        List.dropWhile_eq_nil_iff.2 (fun x hx => List.all_eq_true.1 h x hx)
      simp [pyStrip, pyStripData, hdrop]
    simp only [prompt_with_default]
    rw [if_pos hnil]
  · intro hd
    by_cases hu : pyStrip user_input = ""
    · simp only [prompt_with_default]
      rw [if_pos hu]
      have hall : ∀ d ∈ program_defaults, no_surrounding_ws d := by decide
      exact hall _ hd
    · simp only [prompt_with_default]
      rw [if_neg hu]
      exact pyStrip_no_surrounding user_input

/-- Witness for C10 at concrete inputs. -/
theorem claim_C10_witness :
    prompt_with_default "  tight opt  " "NORMALOPT" = "tight opt"
    ∧ prompt_with_default "   " "XTB2" = "XTB2"
    ∧ no_surrounding_ws (prompt_with_default "   " "XTB2") := by
  have h1 := (claim_C10_prompt_with_default "  tight opt  " "NORMALOPT").1 (by decide)
  have h2 := (claim_C10_prompt_with_default "   " "XTB2").2.1 (by decide)
  have h3 := (claim_C10_prompt_with_default "   " "XTB2").2.2 (by decide)
  exact ⟨h1, h2, h3⟩

/-- Claim C5.  In every run, the entropy-specific keys are present iff mode
GOAT-ENTROPY was chosen, the topology-free keys iff mode GOAT-EXPLORE was
chosen, and the GFN uphill method key iff the use-faster-GFN toggle was
answered yes; moreover `select_goat_variant` only ever produces one of the
four variant names. -/
theorem claim_C5_mode_specific_keys (a : Answers) (choice gt : String) :
    ("MINDELS" ∈ config_keys a ↔ a.goat_type = "GOAT-ENTROPY")
    ∧ ("CONFDEGEN" ∈ config_keys a ↔ a.goat_type = "GOAT-ENTROPY")
    ∧ ("FREEZEBONDS" ∈ config_keys a ↔ a.goat_type = "GOAT-EXPLORE")
    ∧ ("FREEZEANGLES" ∈ config_keys a ↔ a.goat_type = "GOAT-EXPLORE")
    ∧ ("GFNUPHILL_METHOD" ∈ config_keys a ↔ a.use_gfnuphill = true)
    ∧ (select_goat_variant choice = some gt →
        gt = "GOAT" ∨ gt = "GOAT-ENTROPY" ∨ gt = "GOAT-EXPLORE"
          ∨ gt = "GOAT-DIVERSITY") := by
  have hsel : select_goat_variant choice = some gt →
      gt = "GOAT" ∨ gt = "GOAT-ENTROPY" ∨ gt = "GOAT-EXPLORE"
        ∨ gt = "GOAT-DIVERSITY" := by
    unfold select_goat_variant
    intro h
    split_ifs at h <;> simp_all
  refine ⟨?_, ?_, ?_, ?_, ?_, hsel⟩
  all_goals
    by_cases hE : a.goat_type = "GOAT-ENTROPY" <;>
      by_cases hX : a.goat_type = "GOAT-EXPLORE" <;>
      by_cases hG : a.use_gfnuphill = true <;>
      simp_all [config_keys, build_config]

/-- Claim C2.  Output names: the job file is `<base>_<mode lowercased with
hyphens replaced by underscores>.inp` and the submission script is
`run_<base>_<same>.sh`, both placed in the configured output directory;
spelled out for each of the four modes. -/
theorem claim_C2_output_file_names (base_name output_dir xyz_file : String)
    (config : Config) :
    (generate_inp_file_path output_dir xyz_file config
        = output_dir ++ ("/" ++ generate_inp_file_name (path_stem xyz_file) config))
    ∧ (generate_sbatch_file_path output_dir xyz_file config
        = output_dir ++ ("/" ++ generate_sbatch_file_name (path_stem xyz_file) config))
    ∧ (config.GOAT_TYPE = "GOAT" →
        generate_inp_file_name base_name config = base_name ++ "_goat.inp"
        ∧ generate_sbatch_file_name base_name config = "run_" ++ (base_name ++ "_goat.sh"))
    ∧ (config.GOAT_TYPE = "GOAT-ENTROPY" →
        generate_inp_file_name base_name config = base_name ++ "_goat_entropy.inp"
        ∧ generate_sbatch_file_name base_name config
            = "run_" ++ (base_name ++ "_goat_entropy.sh"))
    ∧ (config.GOAT_TYPE = "GOAT-EXPLORE" →
        generate_inp_file_name base_name config = base_name ++ "_goat_explore.inp"
        ∧ generate_sbatch_file_name base_name config
            = "run_" ++ (base_name ++ "_goat_explore.sh"))
    ∧ (config.GOAT_TYPE = "GOAT-DIVERSITY" →
        generate_inp_file_name base_name config = base_name ++ "_goat_diversity.inp"
        ∧ generate_sbatch_file_name base_name config
            = "run_" ++ (base_name ++ "_goat_diversity.sh")) := by
  refine ⟨rfl, rfl, ?_, ?_, ?_, ?_⟩ <;>
    · intro h
      unfold generate_inp_file_name generate_sbatch_file_name
      rw [h]
      exact ⟨rfl, rfl⟩

/-- A job file rendered for a non-entropy mode contains no forced
maximize-entropy line, whatever the configuration values are. -/
theorem maxentropy_line_not_mem (xyz_file : String) (config : Config)
    (hgt : config.GOAT_TYPE ≠ "GOAT-ENTROPY") :
    maxentropy_line ∉ generate_inp_file_lines xyz_file config := by
  intro hmem
  simp only [generate_inp_file_lines, List.mem_append, List.mem_cons,
    List.mem_singleton, List.mem_nil_iff, or_false, false_or, mem_ite_nil,
    hgt, false_and, and_or_left, or_assoc] at hmem
  repeat' rcases hmem with hmem | hmem
  all_goals try obtain ⟨hc, hmem⟩ := hmem
  all_goals
    first
    | exact hgt hc
    | exact absurd hmem (by decide)
    | exact ne_of_left_part _ _ _ (by decide) hmem
    | exact ne_of_left_part _ _ _ (by decide) hmem.symm
    | exact ne_of_parts _ _ _ _ (by decide) (by decide) hmem

/-- A job file rendered for a non-entropy mode contains no
minimum-entropy-difference line, for any value. -/
theorem mindels_line_not_mem (xyz_file : String) (config : Config) (v : String)
    (hgt : config.GOAT_TYPE ≠ "GOAT-ENTROPY") :
    mindels_line v ∉ generate_inp_file_lines xyz_file config := by
  intro hmem
  simp only [generate_inp_file_lines, mindels_line, List.mem_append, List.mem_cons,
    List.mem_singleton, List.mem_nil_iff, or_false, false_or, mem_ite_nil,
    hgt, false_and, and_or_left, or_assoc] at hmem
  repeat' rcases hmem with hmem | hmem
  all_goals try obtain ⟨hc, hmem⟩ := hmem
  all_goals
    first
    | exact hgt hc
    | exact absurd hmem (by decide)
    | exact ne_of_left_part _ _ _ (by decide) hmem
    | exact ne_of_left_part _ _ _ (by decide) hmem.symm
    | exact ne_of_parts _ _ _ _ (by decide) (by decide) hmem

/-- A job file rendered for a non-entropy mode contains no
degeneracy-handling line, for any value. -/
theorem confdegen_line_not_mem (xyz_file : String) (config : Config) (v : String)
    (hgt : config.GOAT_TYPE ≠ "GOAT-ENTROPY") :
    confdegen_line v ∉ generate_inp_file_lines xyz_file config := by
  intro hmem
  simp only [generate_inp_file_lines, confdegen_line, List.mem_append, List.mem_cons,
    List.mem_singleton, List.mem_nil_iff, or_false, false_or, mem_ite_nil,
    hgt, false_and, and_or_left, or_assoc] at hmem
  repeat' rcases hmem with hmem | hmem
  all_goals try obtain ⟨hc, hmem⟩ := hmem
  all_goals
    first
    | exact hgt hc
    | exact absurd hmem (by decide)
    | exact ne_of_left_part _ _ _ (by decide) hmem
    | exact ne_of_left_part _ _ _ (by decide) hmem.symm
    | exact ne_of_parts _ _ _ _ (by decide) (by decide) hmem

/-- Claim C3.  The rendered job file contains the forced maximize-entropy
line, the minimum-entropy-difference line with the configured MINDELS value
and the degeneracy-handling line with the configured CONFDEGEN value iff
the mode is GOAT-ENTROPY; for any other mode all three kinds of line are
absent. -/
theorem claim_C3_entropy_block (xyz_file : String) (config : Config) :
    ((maxentropy_line ∈ generate_inp_file_lines xyz_file config
        ∧ mindels_line config.MINDELS ∈ generate_inp_file_lines xyz_file config
        ∧ confdegen_line config.CONFDEGEN ∈ generate_inp_file_lines xyz_file config)
      ↔ config.GOAT_TYPE = "GOAT-ENTROPY")
    ∧ (config.GOAT_TYPE ≠ "GOAT-ENTROPY" →
        maxentropy_line ∉ generate_inp_file_lines xyz_file config
        ∧ (∀ v, mindels_line v ∉ generate_inp_file_lines xyz_file config)
        ∧ (∀ v, confdegen_line v ∉ generate_inp_file_lines xyz_file config)) := by
  constructor
  · constructor
    · rintro ⟨h1, -, -⟩
      by_contra hgt
      exact maxentropy_line_not_mem xyz_file config hgt h1
    · intro h
      refine ⟨?_, ?_, ?_⟩ <;> simp [generate_inp_file_lines, h]
  · intro hgt
    exact ⟨maxentropy_line_not_mem xyz_file config hgt,
           fun v => mindels_line_not_mem xyz_file config v hgt,
           fun v => confdegen_line_not_mem xyz_file config v hgt⟩

/-- Witness for C2 at concrete inputs. -/
theorem claim_C2_witness :
    generate_inp_file_name "pep1" sampleConfig = "pep1_goat.inp"
    ∧ generate_sbatch_file_name "pep1"
        { sampleConfig with GOAT_TYPE := "GOAT-ENTROPY" }
        = "run_pep1_goat_entropy.sh" := by
  refine ⟨?_, ?_⟩
  · exact ((claim_C2_output_file_names "pep1" "goat_inputs" "xyzs/pep1.xyz"
      sampleConfig).2.2.1 rfl).1
  · exact ((claim_C2_output_file_names "pep1" "goat_inputs" "xyzs/pep1.xyz"
      { sampleConfig with GOAT_TYPE := "GOAT-ENTROPY" }).2.2.2.1 rfl).2

/-- Witness for C3 at concrete inputs. -/
theorem claim_C3_witness :
    maxentropy_line ∈ generate_inp_file_lines "xyzs/pep1.xyz"
        { sampleConfig with GOAT_TYPE := "GOAT-ENTROPY" }
    ∧ maxentropy_line ∉ generate_inp_file_lines "xyzs/pep1.xyz" sampleConfig := by
  refine ⟨?_, ?_⟩
  · exact ((claim_C3_entropy_block "xyzs/pep1.xyz"
      { sampleConfig with GOAT_TYPE := "GOAT-ENTROPY" }).1.mpr rfl).1
  · exact ((claim_C3_entropy_block "xyzs/pep1.xyz" sampleConfig).2 (by decide)).1

/-- A submission script rendered with an empty PARTITION value contains no
partition directive. -/
theorem partition_line_not_mem (xyz_file : String) (config : Config)
    (hP : config.PARTITION = "") :
    partition_line config.PARTITION ∉ generate_sbatch_script_lines xyz_file config := by
  intro hmem
  simp only [generate_sbatch_script_lines, partition_line, hP, List.mem_append,
    List.mem_cons, List.mem_singleton, List.mem_nil_iff, or_false, false_or,
    eq_self_iff_true, if_true, and_or_left, or_assoc] at hmem
  repeat' rcases hmem with hmem | hmem
  all_goals
    first
    | exact absurd hmem (by decide)
    | exact ne_of_left_part _ _ _ (by decide) hmem
    | exact ne_of_left_part _ _ _ (by decide) hmem.symm
    | exact ne_of_parts _ _ _ _ (by decide) (by decide) hmem
    | exact ne_of_right_part _ _ _ (by decide) hmem.symm

/-- Claim C8.  Every rendered submission script declares a tasks directive
equal to the configured NPROCS, and declares a partition directive with the
configured partition name iff that value is non-empty. -/
theorem claim_C8_sbatch_directives (xyz_file : String) (config : Config) :
    ntasks_line config.NPROCS ∈ generate_sbatch_script_lines xyz_file config
    ∧ (partition_line config.PARTITION ∈ generate_sbatch_script_lines xyz_file config
        ↔ config.PARTITION ≠ "") := by
  constructor
  · simp [generate_sbatch_script_lines]
  · constructor
    · intro hmem
      by_contra hP
      exact partition_line_not_mem xyz_file config hP hmem
    · intro h
      simp [generate_sbatch_script_lines, h]

/-- Dropping the tokens that resolve to nothing does not change a
`filterMap`. -/
theorem filterMap_filter_isSome {α β : Type} (f : α → Option β) (l : List α) :
    l.filterMap f = (l.filter (fun x => (f x).isSome)).filterMap f := by
  induction l with
  | nil => rfl
  | cons x xs ih =>
    cases hfx : f x with
    | none => simp [List.filterMap_cons, List.filter_cons, hfx, ih]
    | some b => simp [List.filterMap_cons, List.filter_cons, hfx, ih]

/-- An out-of-range token always leaves its warning in the warning list. -/
theorem warning_mem_of_out_of_range (files : List String) :
    ∀ (toks : List String) (tok : String) (idx : Int), tok ∈ toks →
      pyToInt? tok = some idx →
      ¬(1 ≤ idx ∧ idx ≤ (files.length : Int)) →
      ("Invalid index: " ++ (toString idx ++ " (skipped)"))
        ∈ selection_warnings toks files := by
  intro toks
  induction toks with
  | nil => intro tok idx h; simp at h
  | cons t ts ih =>
    intro tok idx hmem hparse hrange
    rcases List.mem_cons.1 hmem with rfl | hmem
    · simp [selection_warnings, List.filterMap_cons, hparse, hrange]
    · have hts := ih tok idx hmem hparse hrange
      cases hft : pyToInt? t with
      | none =>
        simp only [selection_warnings, List.filterMap_cons, hft]
        exact List.mem_cons_of_mem _ hts
      | some j =>
        by_cases hv : 1 ≤ j ∧ j ≤ (files.length : Int)
        · simp only [selection_warnings, List.filterMap_cons, hft, if_pos hv]
          exact hts
        · simp only [selection_warnings, List.filterMap_cons, hft, if_neg hv]
          exact List.mem_cons_of_mem _ hts

/-- Claim C4.  Out-of-range numeric tokens are dropped with a warning while
the run continues with the remaining valid tokens, and when no token
resolves to an artifact the run exits with status 1 having created no
directory and written no file. -/
theorem claim_C4_invalid_selection (files toks : List String) (tok : String)
    (idx : Int) (listing : List String) (selection : String) (config : Config)
    (output_dir : String) :
    (select_by_tokens toks files
        = select_by_tokens
            (toks.filter (fun t => (resolve_token files t).isSome)) files)
    ∧ (tok ∈ toks → pyToInt? tok = some idx →
        ¬(1 ≤ idx ∧ idx ≤ (files.length : Int)) →
        ("Invalid index: " ++ (toString idx ++ " (skipped)"))
          ∈ selection_warnings toks files)
    ∧ (pyLower selection ≠ "all" →
        select_by_tokens (pySplit selection) (sorted_xyz_files listing) = [] →
        main_run listing selection config output_dir = ⟨1, none, []⟩) := by
  refine ⟨filterMap_filter_isSome _ _, warning_mem_of_out_of_range files toks tok idx, ?_⟩
  intro hsel hempty
  by_cases hx : (sorted_xyz_files listing).isEmpty
  · simp [main_run, hx]
  · simp [main_run, hx, hsel, hempty]

/-- Witness for C4 at concrete inputs: three artifacts, selection `99`. -/
theorem claim_C4_witness :
    ("Invalid index: 99 (skipped)")
        ∈ selection_warnings ["99"] ["xyzs/a.xyz", "xyzs/b.xyz", "xyzs/c.xyz"]
    ∧ main_run ["xyzs/pep1.xyz"] "99" sampleConfig "goat_inputs"
        = ⟨1, none, []⟩ := by
  have h := claim_C4_invalid_selection ["xyzs/a.xyz", "xyzs/b.xyz", "xyzs/c.xyz"]
    ["99"] "99" 99 ["xyzs/pep1.xyz"] "99" sampleConfig "goat_inputs"
  exact ⟨h.2.1 (by decide) (by decide) (by decide), h.2.2 (by decide) (by decide)⟩

/-- The rendering loop distributes over concatenation of the selection. -/
theorem render_writes_append (sel1 sel2 : List String) (output_dir : String)
    (config : Config) :
    render_writes (sel1 ++ sel2) output_dir config
      = render_writes sel1 output_dir config ++ render_writes sel2 output_dir config := by
  induction sel1 with
  | nil => rfl
  | cons x xs ih => simp [render_writes, ih]

/-- The rendering loop writes exactly two files per selected artifact. -/
theorem render_writes_length (sel : List String) (output_dir : String)
    (config : Config) :
    (render_writes sel output_dir config).length = 2 * sel.length := by
  induction sel with
  | nil => rfl
  | cons x xs ih =>
    simp [render_writes, ih]
    omega

/-- Claim C9.  Numeric-token selection renders the artifacts at the valid
indices in token order, without deduplication: selection is concatenative
over the token list, each valid token contributes exactly the indexed
artifact, each invalid token contributes nothing, the rendering loop is
concatenative and writes exactly one job-file/script pair per occurrence,
and a later write to a path overwrites an earlier one. -/
theorem claim_C9_token_order_no_dedup (files toks1 toks2 : List String)
    (tok : String) (sel1 sel2 : List String) (x output_dir : String)
    (config : Config) (ws : List (String × String)) (p c : String) :
    (select_by_tokens (toks1 ++ toks2) files
        = select_by_tokens toks1 files ++ select_by_tokens toks2 files)
    ∧ (∀ idx : Int, pyToInt? tok = some idx → 1 ≤ idx →
        idx ≤ (files.length : Int) →
        select_by_tokens [tok] files = [files.getD (idx.toNat - 1) ""])
    ∧ (resolve_token files tok = none → select_by_tokens [tok] files = [])
    ∧ (render_writes (sel1 ++ sel2) output_dir config
        = render_writes sel1 output_dir config
            ++ render_writes sel2 output_dir config)
    ∧ (render_writes [x] output_dir config
        = [inp_write output_dir config x, sbatch_write output_dir config x])
    ∧ (apply_writes (ws ++ [(p, c)]) p = some c) := by
  refine ⟨List.filterMap_append _ _ _, ?_, ?_, render_writes_append _ _ _ _, rfl, ?_⟩
  · intro idx hparse h1 h2
    have hv : 1 ≤ idx ∧ idx ≤ (files.length : Int) := ⟨h1, h2⟩
    have hlt : idx.toNat - 1 < files.length := by omega
    have hy : files.get? (idx.toNat - 1) = some (files.getD (idx.toNat - 1) "") := by
      rw [List.getD_eq_getD_get?]
      rw [List.get?_eq_getElem?, List.getElem?_eq_getElem hlt]
      rfl
    have hres : resolve_token files tok = some (files.getD (idx.toNat - 1) "") := by
      unfold resolve_token
      rw [hparse]
      show (if 1 ≤ idx ∧ idx ≤ (files.length : Int) then files.get? (idx.toNat - 1)
            else none) = some (files.getD (idx.toNat - 1) "")
      rw [if_pos hv]
      exact hy
    simp [select_by_tokens, hres]
  · intro hres
    simp [select_by_tokens, hres]
  · simp [apply_writes, List.reverse_append]

/-- Witness for C9 at concrete inputs. -/
theorem claim_C9_witness :
    select_by_tokens ["2"] ["xyzs/a.xyz", "xyzs/b.xyz"] = ["xyzs/b.xyz"]
    ∧ select_by_tokens ["zz"] ["xyzs/a.xyz", "xyzs/b.xyz"] = []
    ∧ apply_writes ([("f.inp", "old")] ++ [("f.inp", "new")]) "f.inp" = some "new" := by
  refine ⟨?_, ?_, ?_⟩
  · exact (claim_C9_token_order_no_dedup ["xyzs/a.xyz", "xyzs/b.xyz"] [] [] "2" [] []
      "x" "d" sampleConfig [] "p" "c").2.1 2 (by decide) (by decide) (by decide)
  · exact (claim_C9_token_order_no_dedup ["xyzs/a.xyz", "xyzs/b.xyz"] [] [] "zz" [] []
      "x" "d" sampleConfig [] "p" "c").2.2.1 (by decide)
  · exact (claim_C9_token_order_no_dedup [] [] [] "t" [] [] "x" "d" sampleConfig
      [("f.inp", "old")] "f.inp" "new").2.2.2.2.2

/-- Claim C6.  When the user selects "all" (case-insensitively) and at least
one artifact exists, the run succeeds, rendering exactly one
job-file/script pair per artifact of the input directory, in
lexicographically sorted order of the artifact paths, followed by the
helper script. -/
theorem claim_C6_select_all (listing : List String) (selection : String)
    (config : Config) (output_dir : String)
    (hall : pyLower selection = "all")
    (hne : sorted_xyz_files listing ≠ []) :
    main_run listing selection config output_dir
        = ⟨0, some output_dir,
           render_writes (sorted_xyz_files listing) output_dir config
             ++ [submit_all_write output_dir config]⟩
    ∧ List.Sorted (fun a b : String => a ≤ b) (sorted_xyz_files listing)
    ∧ (sorted_xyz_files listing).Perm (listing.filter matches_xyz_glob)
    ∧ (render_writes (sorted_xyz_files listing) output_dir config).length
        = 2 * (sorted_xyz_files listing).length := by
  have hie : (sorted_xyz_files listing).isEmpty = false := by
    cases h : sorted_xyz_files listing with
    | nil => exact absurd h hne
    | cons a l => rfl
  refine ⟨?_, ?_, ?_, render_writes_length _ _ _⟩
  · simp [main_run, hall, hie]
  · unfold sorted_xyz_files
    exact List.sorted_insertionSort _ _
  · unfold sorted_xyz_files
    exact List.perm_insertionSort _ _

/-- Witness for C6 at concrete inputs. -/
theorem claim_C6_witness :
    main_run ["xyzs/pep1.xyz"] "ALL" sampleConfig "goat_inputs"
        = ⟨0, some "goat_inputs",
           render_writes (sorted_xyz_files ["xyzs/pep1.xyz"]) "goat_inputs" sampleConfig
             ++ [submit_all_write "goat_inputs" sampleConfig]⟩
    ∧ List.Sorted (fun a b : String => a ≤ b) (sorted_xyz_files ["xyzs/pep1.xyz"])
    ∧ (sorted_xyz_files ["xyzs/pep1.xyz"]).Perm
        (["xyzs/pep1.xyz"].filter matches_xyz_glob)
    ∧ (render_writes (sorted_xyz_files ["xyzs/pep1.xyz"]) "goat_inputs"
        sampleConfig).length
        = 2 * (sorted_xyz_files ["xyzs/pep1.xyz"]).length :=
  claim_C6_select_all ["xyzs/pep1.xyz"] "ALL" sampleConfig "goat_inputs" (by decide)
    (by decide)

/-- Witness for C5 at concrete inputs: menu choice `2` selects GOAT-ENTROPY,
and an entropy-mode run has the MINDELS key. -/
theorem claim_C5_witness :
    "MINDELS" ∈ config_keys sampleAnswers
    ∧ ("GOAT-ENTROPY" = "GOAT" ∨ "GOAT-ENTROPY" = "GOAT-ENTROPY"
        ∨ "GOAT-ENTROPY" = "GOAT-EXPLORE" ∨ "GOAT-ENTROPY" = "GOAT-DIVERSITY") := by
  refine ⟨?_, ?_⟩
  · exact (claim_C5_mode_specific_keys sampleAnswers "2" "GOAT-ENTROPY").1.mpr rfl
  · exact (claim_C5_mode_specific_keys sampleAnswers "2" "GOAT-ENTROPY").2.2.2.2.2 rfl

/-- Witness for C8 at concrete inputs. -/
theorem claim_C8_witness :
    ntasks_line "200" ∈ generate_sbatch_script_lines "xyzs/pep1.xyz" sampleConfig
    ∧ (partition_line "debug" ∈ generate_sbatch_script_lines "xyzs/pep1.xyz"
          { sampleConfig with PARTITION := "debug" }
        ↔ ("debug" : String) ≠ "") := by
  refine ⟨?_, ?_⟩
  · exact (claim_C8_sbatch_directives "xyzs/pep1.xyz" sampleConfig).1
  · exact (claim_C8_sbatch_directives "xyzs/pep1.xyz"
      { sampleConfig with PARTITION := "debug" }).2

end OrcaGoat
